import Mathlib

/-!
# Verification of `mining_monitor.py`

A shallow embedding of the mining-rig monitoring tool: the `NVMLWrapper`
driver gateway, the snapshot/total-power computation of `get_system_info`
and `monitor_resources`, and the interactive `configure_gpu` session.

The vendor driver (NVML, reached through `ctypes`) is modelled as an
explicit environment `DriverEnv`: whether `find_library` locates the
shared object, whether `CDLL` loads it, the status code `nvmlInit_v2`
returns, the per-device state, and whether the driver rejects
power-limit writes.  `ctypes` calls on a loaded library return status
codes and do not raise; the Python code discards every such status,
which the embedding mirrors with discarded `let` bindings.  The one
read the code guards with `try`/`except` (`nvmlDeviceGetPowerUsage`
inside `get_power_usage`) is modelled with `Except`.
-/

/-- Python-level exceptions that the script can raise or catch. -/
inductive PyError where
  | valueError
  | runtimeError (msg : String)
  | osError
  | attributeError
deriving DecidableEq

/-- One call issued to the vendor driver library, recorded for trace
reasoning about initialization order and write calls. -/
inductive DriverCall where
  | init
  | getCount
  | getHandle (idx : Nat)
  | getName (idx : Nat)
  | getMemoryInfo (idx : Nat)
  | getPowerLimit (idx : Nat)
  | getPowerUsage (idx : Nat)
  | setPowerLimit (idx : Nat) (milliwatts : Nat)
  | setApplicationsClocks (idx : Nat) (graphicsMhz memMhz : Int)
deriving DecidableEq

deriving instance DecidableEq for Except

/-- Driver-side state of one GPU, as visible through the NVML reads the
script performs.  `powerUsage` is the outcome of the
`nvmlDeviceGetPowerUsage` call: the milliwatt reading, or the Python
exception the `ctypes` invocation raises. -/
structure DeviceState where
  name : String
  memoryTotalBytes : Nat
  memoryFreeBytes : Nat
  memoryUsedBytes : Nat
  powerLimitMilliwatts : Nat
  powerUsage : Except PyError Nat
deriving DecidableEq

/-- The vendor-driver environment a run of the tool executes against. -/
structure DriverEnv where
  /-- `find_library "nvidia-ml"` returns a path (not `None`). -/
  libraryFound : Bool
  /-- `CDLL nvml_path` succeeds (does not raise `OSError`). -/
  loadOk : Bool
  /-- Status code returned by `nvmlInit_v2` (0 = success). -/
  initStatus : Nat
  devices : List DeviceState
  /-- The driver rejects `nvmlDeviceSetPowerManagementLimit` writes. -/
  rejectPowerLimit : Bool
deriving DecidableEq

/-- Status code returned by the driver's `nvmlInit_v2` call. -/
def nvmlInit_v2 (env : DriverEnv) : Nat :=
  env.initStatus

/-- `NVMLWrapper.load_nvml_library`: locate the library (raising
`RuntimeError` when `find_library` returns `None`), load it with `CDLL`
(which raises `OSError` on failure), then call `nvmlInit_v2` — whose
status code the source discards. -/
def load_nvml_library (env : DriverEnv) : Except PyError Unit :=
  if env.libraryFound then
    if env.loadOk then
      let _status := nvmlInit_v2 env
      Except.ok ()
    else
      Except.error PyError.osError
  else
    Except.error (PyError.runtimeError
      "NVML library not found. Ensure NVIDIA drivers are installed.")

/-- `NVMLWrapper.get_power_usage`: the guarded read.  On any exception
from the `nvmlDeviceGetPowerUsage` call the `except` clause returns
`None`; otherwise the milliwatt value is divided by 1000 (Python true
division, modelled in `ℚ`). -/
def get_power_usage (d : DeviceState) : Option ℚ :=
  match d.powerUsage with
  | Except.error _ => none
  | Except.ok mw => some ((mw : ℚ) / 1000)

/-- Result dictionary of `NVMLWrapper.get_memory_info`. -/
structure MemoryInfo where
  total : Nat
  free : Nat
  used : Nat
deriving DecidableEq

/-- `NVMLWrapper.get_memory_info`: reads the memory-info struct. -/
def get_memory_info (d : DeviceState) : MemoryInfo :=
  { total := d.memoryTotalBytes, free := d.memoryFreeBytes, used := d.memoryUsedBytes }

/-- `NVMLWrapper.get_power_limit`: milliwatts floor-divided to watts. -/
def get_power_limit (d : DeviceState) : Nat :=
  d.powerLimitMilliwatts / 1000

/-- One entry of the list `NVMLWrapper.list_gpus` builds for device
index `idx`. -/
structure GpuRecord where
  id : Nat
  name : String
  /-- `memory_info["total"] // (1024 ** 2)` (MiB). -/
  memory : Nat
  /-- `get_power_limit` result (watts). -/
  power_limit : Nat
  /-- `get_power_usage` result (watts, absent on read failure). -/
  power_usage : Option ℚ
deriving DecidableEq

/-- The dictionary `list_gpus` appends for index `idx` and device `d`. -/
def mkGpuRecord (idx : Nat) (d : DeviceState) : GpuRecord :=
  { id := idx
    name := d.name
    memory := (get_memory_info d).total / (1024 ^ 2)
    power_limit := get_power_limit d
    power_usage := get_power_usage d }

/-- The `for idx in range(device_count)` loop of `list_gpus`, walking
the remaining devices with the running index `start`. -/
def list_gpus_from : List DeviceState → Nat → List GpuRecord
  | [], _ => []
  | d :: rest, start => mkGpuRecord start d :: list_gpus_from rest (start + 1)

/-- `NVMLWrapper.list_gpus`: the driver reports `env.devices.length`
as the device count; each index `0 ≤ idx < count` obtains a handle and
is read into a `GpuRecord`. -/
def list_gpus (env : DriverEnv) : List GpuRecord :=
  list_gpus_from env.devices 0

/-- `ctypes.c_uint`: coercion of a Python integer through a 32-bit
unsigned C integer (wraps modulo `2 ^ 32`). -/
def c_uint (x : Int) : Nat :=
  (x % (2 ^ 32 : Int)).toNat

/-- Status code returned by the driver's power-limit write. -/
def nvmlDeviceSetPowerManagementLimit (env : DriverEnv) (_idx _mw : Nat) : Nat :=
  if env.rejectPowerLimit then 13 else 0

/-- `NVMLWrapper.set_power_limit`: issues
`nvmlDeviceSetPowerManagementLimit(handle, c_uint(limit * 1000))`.
The status code the driver returns is discarded by the source. -/
def set_power_limit (env : DriverEnv) (idx : Nat) (limit : Int) : DriverCall :=
  let mw := c_uint (limit * 1000)
  let _status := nvmlDeviceSetPowerManagementLimit env idx mw
  DriverCall.setPowerLimit idx mw

/-- `NVMLWrapper.set_memory_frequency`: issues
`nvmlDeviceSetApplicationsClocks(handle, freq, freq)` — the same
frequency for the graphics and the memory domain. -/
def set_memory_frequency (idx : Nat) (freq : Int) : DriverCall :=
  DriverCall.setApplicationsClocks idx freq freq

/-- Python `str.strip()`: drop leading and trailing whitespace. -/
def pyStrip (s : String) : String :=
  String.mk (((s.data.dropWhile Char.isWhitespace).reverse.dropWhile
    Char.isWhitespace).reverse)

/-- Decimal value of a digit string. -/
def digitsVal (cs : List Char) : Nat :=
  cs.foldl (fun a c => a * 10 + (c.toNat - 48)) 0

/-- Python `int(str)` on an already-stripped character list: an
optional sign followed by at least one decimal digit; anything else
raises `ValueError` (`none`). -/
def pyIntChars : List Char → Option Int
  | [] => none
  | '+' :: rest =>
      if rest ≠ [] ∧ rest.all Char.isDigit then some (digitsVal rest) else none
  | '-' :: rest =>
      if rest ≠ [] ∧ rest.all Char.isDigit then some (-(digitsVal rest : Int)) else none
  | cs =>
      if cs.all Char.isDigit then some (digitsVal cs) else none

/-- Python `int(str)`: strips surrounding whitespace, then parses. -/
def pyInt (s : String) : Option Int :=
  pyIntChars (pyStrip s).data

/-- The listing line `configure_gpu` prints for one GPU. -/
def gpuListingLine (g : GpuRecord) : String :=
  toString (g.id + 1) ++ ". " ++ g.name ++ " (Memory: " ++ toString g.memory
    ++ " MB, Power Limit: " ++ toString g.power_limit ++ " W)"

/-- Observable outcome of `get_system_info`: whether a warning was
printed, whether the system-facts table was printed, the total GPU
power figure shown (absent in the degraded branch), and the exception
escaping the call, if any. -/
structure SysInfoOutcome where
  warning : Option String
  sysFactsShown : Bool
  totalPower : Option ℚ
  crashed : Option PyError
deriving DecidableEq

/-- Message text of a Python exception (`str(e)`). -/
def pyErrMsg : PyError → String
  | PyError.valueError => "invalid literal for int() with base 10"
  | PyError.runtimeError m => m
  | PyError.osError => "could not load the shared library"
  | PyError.attributeError => "attribute error"

/-- `get_system_info`: the `try` block constructs `NVMLWrapper` (which
may raise) and lists the GPUs, accumulating `total_power` over the
records whose `power_usage` is not `None`; `except Exception` catches
any exception, prints a warning, and still prints the system table. -/
def get_system_info (env : DriverEnv) : SysInfoOutcome :=
  match load_nvml_library env with
  | Except.error e =>
      { warning := some ("Warning: Could not retrieve GPU information: " ++ pyErrMsg e)
        sysFactsShown := true
        totalPower := none
        crashed := none }
  | Except.ok _ =>
      let gpus := list_gpus env
      let total := gpus.foldl
        (fun acc g =>
          match g.power_usage with
          | some p => acc + p
          | none => acc) (0 : ℚ)
      { warning := none
        sysFactsShown := true
        totalPower := some total
        crashed := none }

/-- The `Total GPU Power` figure one iteration of the
`monitor_resources` loop computes and renders (same accumulation as
`get_system_info`, run against a fresh `list_gpus` call). -/
def monitor_tick_total (env : DriverEnv) : ℚ :=
  (list_gpus env).foldl
    (fun acc g =>
      match g.power_usage with
      | some p => acc + p
      | none => acc) (0 : ℚ)

/-- The memory-frequency block of `configure_gpu`: the stripped input,
if non-blank, is parsed with `int`; a parsed value is written through
`set_memory_frequency`, a `ValueError` keeps the current setting, and a
blank input keeps the current setting without a write.  Returns the
driver calls issued and the messages printed. -/
def mem_step (g : GpuRecord) (memInput : String) : List DriverCall × List String :=
  if pyStrip memInput ≠ "" then
    match pyInt (pyStrip memInput) with
    | some f =>
        ([set_memory_frequency g.id f],
         ["Memory Frequency updated to " ++ toString f ++ " MHz"])
    | none =>
        ([], ["Invalid memory frequency value. Keeping current setting."])
  else
    ([], ["Keeping current memory frequency setting"])

/-- The power-limit block of `configure_gpu`: same parse-or-keep
policy, writing through `set_power_limit`. -/
def pow_step (env : DriverEnv) (g : GpuRecord) (powInput : String) :
    List DriverCall × List String :=
  if pyStrip powInput ≠ "" then
    match pyInt (pyStrip powInput) with
    | some w =>
        ([set_power_limit env g.id w],
         ["Power limit updated to " ++ toString w ++ " W"])
    | none =>
        ([], ["Invalid power limit value. Keeping current setting."])
  else
    ([], ["Keeping current power limit setting"])

/-- Observable outcome of one `configure_gpu` session: every driver
call issued (in order), every line printed, how many of the two
value prompts were reached after the selection prompt, and the
exception escaping the call, if any. -/
structure SessionOutcome where
  calls : List DriverCall
  output : List String
  promptsAfterSelection : Nat
  crashed : Option PyError
deriving DecidableEq

/-- Driver calls one loop iteration of `list_gpus` issues for index `i`. -/
def perDeviceTrace (i : Nat) : List DriverCall :=
  [DriverCall.getHandle i, DriverCall.getName i, DriverCall.getMemoryInfo i,
   DriverCall.getPowerLimit i, DriverCall.getPowerUsage i]

/-- Driver calls issued by one `list_gpus` call. -/
def list_gpus_trace (env : DriverEnv) : List DriverCall :=
  DriverCall.getCount :: (List.range env.devices.length).flatMap perDeviceTrace

/-- `configure_gpu`: constructs a fresh `NVMLWrapper` (raising if the
library is unavailable), lists the GPUs, parses the 1-based selection
with `int` (an unparseable string raises an uncaught `ValueError`),
range-checks `choice = int(input) - 1`, and on a valid choice
re-resolves the handle and runs the two parse-or-keep steps before
reporting completion; an out-of-range choice prints
`Invalid selection.` and prompts for nothing further. -/
def configure_gpu (env : DriverEnv) (selInput memInput powInput : String) :
    SessionOutcome :=
  match load_nvml_library env with
  | Except.error e =>
      { calls := [], output := [], promptsAfterSelection := 0, crashed := some e }
  | Except.ok _ =>
      let gpus := list_gpus env
      let listing := "Available GPUs:" :: gpus.map gpuListingLine
      match pyInt selInput with
      | none =>
          { calls := DriverCall.init :: list_gpus_trace env
            output := listing
            promptsAfterSelection := 0
            crashed := some PyError.valueError }
      | some s =>
          if h : 0 ≤ s - 1 ∧ s - 1 < (gpus.length : Int) then
            let g := gpus.get ⟨(s - 1).toNat, by omega⟩
            { calls := DriverCall.init :: (list_gpus_trace env ++
                DriverCall.getHandle g.id ::
                  ((mem_step g memInput).1 ++ (pow_step env g powInput).1))
              output := listing ++ (mem_step g memInput).2 ++
                (pow_step env g powInput).2 ++
                ["Configuration complete for " ++ g.name]
              promptsAfterSelection := 2
              crashed := none }
          else
            { calls := DriverCall.init :: list_gpus_trace env
              output := listing ++ ["Invalid selection."]
              promptsAfterSelection := 0
              crashed := none }

/-- One action selected from the main menu. -/
inductive MenuAction where
  | systemInfo
  | monitor (ticks : Nat)
  | configure (selInput memInput powInput : String)

/-- Driver calls issued by one menu action: each handler constructs a
fresh `NVMLWrapper`, so a successful library load contributes one
`init` call before the action's reads and writes. -/
def action_trace (env : DriverEnv) : MenuAction → List DriverCall
  | MenuAction.systemInfo =>
      match load_nvml_library env with
      | Except.error _ => []
      | Except.ok _ => DriverCall.init :: list_gpus_trace env
  | MenuAction.monitor t =>
      match load_nvml_library env with
      | Except.error _ => []
      | Except.ok _ =>
          DriverCall.init :: (List.range t).flatMap (fun _ => list_gpus_trace env)
  | MenuAction.configure s m p => (configure_gpu env s m p).calls

/-- Whether the action lets a library-load exception escape to `main`,
ending the run: a load failure inside `get_system_info` is caught
there, so the menu loop continues; inside `monitor_resources` or
`configure_gpu` the exception is uncaught. -/
def actionAborts (env : DriverEnv) : MenuAction → Bool
  | MenuAction.systemInfo => false
  | _ =>
      match load_nvml_library env with
      | Except.error _ => true
      | Except.ok _ => false

/-- Driver calls issued by one run of `main`'s menu loop over the given
actions. -/
def run_trace (env : DriverEnv) : List MenuAction → List DriverCall
  | [] => []
  | a :: rest =>
      action_trace env a ++
        (if actionAborts env a then [] else run_trace env rest)

/-- Is this call the driver initialization? -/
def isInit : DriverCall → Bool
  | DriverCall.init => true
  | _ => false

/-- Number of driver initializations in a trace. -/
def countInits (l : List DriverCall) : Nat :=
  (l.filter isInit).length

/-- Is this call a configuration write? -/
def isWriteCall : DriverCall → Bool
  | DriverCall.setPowerLimit _ _ => true
  | DriverCall.setApplicationsClocks _ _ _ => true
  | _ => false

/-- Is this call a clock-lock request? -/
def isClockCall : DriverCall → Bool
  | DriverCall.setApplicationsClocks _ _ _ => true
  | _ => false

/-- The milliwatt payload of a power-limit write. -/
def sentMilliwatts : DriverCall → Option Nat
  | DriverCall.setPowerLimit _ mw => some mw
  | _ => none

/-! ## Concrete driver environments used as witnesses -/

/-- A healthy device whose power read succeeds (150 W). -/
def devA : DeviceState :=
  { name := "GPU-A", memoryTotalBytes := 8 * 1024 ^ 3,
    memoryFreeBytes := 6 * 1024 ^ 3, memoryUsedBytes := 2 * 1024 ^ 3,
    powerLimitMilliwatts := 250000, powerUsage := Except.ok 150000 }

/-- A device whose power-usage read raises inside the wrapper. -/
def devB : DeviceState :=
  { name := "GPU-B", memoryTotalBytes := 8 * 1024 ^ 3,
    memoryFreeBytes := 8 * 1024 ^ 3, memoryUsedBytes := 0,
    powerLimitMilliwatts := 220000, powerUsage := Except.error PyError.attributeError }

/-- Healthy driver with one device. -/
def env1 : DriverEnv :=
  { libraryFound := true, loadOk := true, initStatus := 0,
    devices := [devA], rejectPowerLimit := false }

/-- Healthy driver with two devices, the second with a broken sensor. -/
def envW : DriverEnv :=
  { libraryFound := true, loadOk := true, initStatus := 0,
    devices := [devA, devB], rejectPowerLimit := false }

/-- Healthy driver with three devices. -/
def env3 : DriverEnv :=
  { libraryFound := true, loadOk := true, initStatus := 0,
    devices := [devA, devB, devA], rejectPowerLimit := false }

/-- Driver that rejects power-limit writes. -/
def envRej : DriverEnv :=
  { libraryFound := true, loadOk := true, initStatus := 0,
    devices := [devA], rejectPowerLimit := true }

/-- Library present but `nvmlInit_v2` reports failure (status 9,
`NVML_ERROR_DRIVER_NOT_LOADED`). -/
def envInitFail : DriverEnv :=
  { libraryFound := true, loadOk := true, initStatus := 9,
    devices := [], rejectPowerLimit := false }

/-- `find_library` cannot locate the NVML shared object. -/
def envNoLib : DriverEnv :=
  { libraryFound := false, loadOk := true, initStatus := 0,
    devices := [devA], rejectPowerLimit := false }

/-! ## Helper lemmas -/

lemma load_nvml_library_ok (env : DriverEnv) (hlib : env.libraryFound = true)
    (hload : env.loadOk = true) : load_nvml_library env = Except.ok () := by
  simp [load_nvml_library, hlib, hload]

lemma foldl_power_acc (l : List GpuRecord) (a : ℚ) :
    l.foldl
        (fun acc g =>
          match g.power_usage with
          | some p => acc + p
          | none => acc) a
      = a + (l.filterMap GpuRecord.power_usage).sum := by
  induction l generalizing a with
  | nil => simp
  | cons g t ih =>
    cases hg : g.power_usage with
    | none => simp [hg, ih, List.filterMap_cons]
    | some p => simp [hg, ih, List.filterMap_cons, add_assoc]

lemma list_gpus_from_length (devs : List DeviceState) (start : Nat) :
    (list_gpus_from devs start).length = devs.length := by
  induction devs generalizing start with
  | nil => rfl
  | cons d t ih => simp [list_gpus_from, ih]

lemma list_gpus_from_ids (devs : List DeviceState) (start : Nat) :
    (list_gpus_from devs start).map GpuRecord.id = List.range' start devs.length := by
  induction devs generalizing start with
  | nil => rfl
  | cons d t ih => simp [list_gpus_from, mkGpuRecord, ih, List.range']

lemma list_gpus_from_getElem? (devs : List DeviceState) (start i : Nat) :
    (list_gpus_from devs start)[i]? = devs[i]?.map (fun d => mkGpuRecord (start + i) d) := by
  induction devs generalizing start i with
  | nil => simp [list_gpus_from]
  | cons d t ih =>
    cases i with
    | zero => simp [list_gpus_from]
    | succ j =>
      have h : start + (j + 1) = (start + 1) + j := by omega
      simp [list_gpus_from, h, ih]

/-! ## C1 — total GPU power is the sum of the present readings -/

/-- C1: in both renderers (the one-shot `get_system_info` table and one
`monitor_resources` tick), the reported total GPU power is the sum of
exactly the present `power_usage` values of the enumerated devices;
absent readings are skipped, and zero devices or all-absent readings
give a total of 0. -/
theorem c1_total_power (env : DriverEnv) (hlib : env.libraryFound = true)
    (hload : env.loadOk = true) :
    (get_system_info env).totalPower =
      some (((list_gpus env).filterMap GpuRecord.power_usage).sum)
    ∧ monitor_tick_total env = ((list_gpus env).filterMap GpuRecord.power_usage).sum
    ∧ (env.devices = [] → monitor_tick_total env = 0)
    ∧ ((∀ g ∈ list_gpus env, g.power_usage = none) → monitor_tick_total env = 0) := by
  have hok : load_nvml_library env = Except.ok () := load_nvml_library_ok env hlib hload
  refine ⟨?_, ?_, ?_, ?_⟩
  · simp [get_system_info, hok, foldl_power_acc]
  · simp [monitor_tick_total, foldl_power_acc]
  · intro h
    simp [monitor_tick_total, list_gpus, h, list_gpus_from]
  · intro h
    rw [monitor_tick_total, foldl_power_acc, List.filterMap_eq_nil_iff.mpr h]
    simp

/-- C1 witness: in `envW` the second device's sensor is broken; the
total is device 0's 150 W alone. -/
theorem c1_total_power_witness :
    (get_system_info envW).totalPower =
      some (((list_gpus envW).filterMap GpuRecord.power_usage).sum)
    ∧ ((list_gpus envW).filterMap GpuRecord.power_usage).sum = 150 := by
  refine ⟨(c1_total_power envW rfl rfl).1, ?_⟩
  simp [envW, list_gpus, list_gpus_from, mkGpuRecord, get_power_usage, devA, devB]
  norm_num

/-! ## C2 — enumeration is complete, ordered, and failure-isolated -/

/-- C2: `list_gpus` returns one record per driver-reported device, with
`id` fields exactly `0..count-1` in order; a failing power read makes
only that device's `power_usage` absent, leaving its other fields and
every other device's record intact. -/
theorem c2_list_devices (env : DriverEnv) :
    (list_gpus env).length = env.devices.length
    ∧ (list_gpus env).map GpuRecord.id = List.range env.devices.length
    ∧ ∀ i d, env.devices[i]? = some d →
        ∃ g : GpuRecord, (list_gpus env)[i]? = some g ∧ g.id = i ∧ g.name = d.name
          ∧ g.memory = d.memoryTotalBytes / 1024 ^ 2
          ∧ g.power_limit = d.powerLimitMilliwatts / 1000
          ∧ g.power_usage = get_power_usage d
          ∧ ∀ e, d.powerUsage = Except.error e → g.power_usage = none := by
  refine ⟨list_gpus_from_length env.devices 0, ?_, ?_⟩
  · rw [list_gpus, list_gpus_from_ids, List.range_eq_range']
  · intro i d hd
    refine ⟨mkGpuRecord i d, ?_, rfl, rfl, rfl, rfl, rfl, ?_⟩
    · rw [list_gpus, list_gpus_from_getElem?, hd]
      simp
    · intro e he
      simp [mkGpuRecord, get_power_usage, he]

/-- C2 witness: in `envW` device 1's power read raises, yet its record
is present with its name and limits, only `power_usage` absent. -/
theorem c2_list_devices_witness :
    ∃ g : GpuRecord, (list_gpus envW)[1]? = some g ∧ g.id = 1 ∧ g.name = devB.name
      ∧ g.memory = devB.memoryTotalBytes / 1024 ^ 2
      ∧ g.power_limit = devB.powerLimitMilliwatts / 1000
      ∧ g.power_usage = get_power_usage devB
      ∧ ∀ e, devB.powerUsage = Except.error e → g.power_usage = none :=
  (c2_list_devices envW).2.2 1 devB rfl

/-! ## Trace and step lemmas -/

lemma mem_list_gpus_trace (env : DriverEnv) :
    ∀ c ∈ list_gpus_trace env,
      isInit c = false ∧ isWriteCall c = false ∧ isClockCall c = false := by
  intro c hc
  rw [list_gpus_trace, List.mem_cons] at hc
  rcases hc with rfl | hc
  · exact ⟨rfl, rfl, rfl⟩
  · rw [List.mem_flatMap] at hc
    obtain ⟨i, -, hci⟩ := hc
    simp only [perDeviceTrace, List.mem_cons, List.not_mem_nil, or_false] at hci
    rcases hci with rfl | rfl | rfl | rfl | rfl <;> exact ⟨rfl, rfl, rfl⟩

lemma filter_init_trace (env : DriverEnv) :
    (list_gpus_trace env).filter isInit = [] :=
  List.filter_eq_nil_iff.mpr fun c hc => by
    simp [(mem_list_gpus_trace env c hc).1]

lemma filter_write_trace (env : DriverEnv) :
    (list_gpus_trace env).filter isWriteCall = [] :=
  List.filter_eq_nil_iff.mpr fun c hc => by
    simp [(mem_list_gpus_trace env c hc).2.1]

lemma filter_clock_trace (env : DriverEnv) :
    (list_gpus_trace env).filter isClockCall = [] :=
  List.filter_eq_nil_iff.mpr fun c hc => by
    simp [(mem_list_gpus_trace env c hc).2.2]

lemma mem_step_filter_init (g : GpuRecord) (m : String) :
    (mem_step g m).1.filter isInit = [] := by
  rw [mem_step]
  split
  · split <;> simp [set_memory_frequency, isInit]
  · simp

lemma pow_step_filter_init (env : DriverEnv) (g : GpuRecord) (p : String) :
    (pow_step env g p).1.filter isInit = [] := by
  rw [pow_step]
  split
  · split <;> simp [set_power_limit, isInit]
  · simp

lemma mem_step_no_power (g : GpuRecord) (m : String) (idx mw : Nat) :
    DriverCall.setPowerLimit idx mw ∉ (mem_step g m).1 := by
  rw [mem_step]
  split
  · split <;> simp [set_memory_frequency]
  · simp

lemma pow_step_filter_clock (env : DriverEnv) (g : GpuRecord) (p : String) :
    (pow_step env g p).1.filter isClockCall = [] := by
  rw [pow_step]
  split
  · split <;> simp [set_power_limit, isClockCall]
  · simp

/-- On a successful library load, a parsed in-range selection reduces
`configure_gpu` to the record built from the two parse-or-keep steps
around the selected GPU. -/
lemma configure_gpu_valid (env : DriverEnv) (sel m p : String) (s : Int)
    (hlib : env.libraryFound = true) (hload : env.loadOk = true)
    (hsel : pyInt sel = some s)
    (h0 : 0 ≤ s - 1) (h1 : s - 1 < ((list_gpus env).length : Int)) :
    ∃ g : GpuRecord, (list_gpus env)[(s - 1).toNat]? = some g ∧
      configure_gpu env sel m p =
        { calls := DriverCall.init :: (list_gpus_trace env ++
            DriverCall.getHandle g.id ::
              ((mem_step g m).1 ++ (pow_step env g p).1))
          output := ("Available GPUs:" :: (list_gpus env).map gpuListingLine) ++
            (mem_step g m).2 ++ (pow_step env g p).2 ++
            ["Configuration complete for " ++ g.name]
          promptsAfterSelection := 2
          crashed := none } := by
  have hok : load_nvml_library env = Except.ok () := load_nvml_library_ok env hlib hload
  have hlt : (s - 1).toNat < (list_gpus env).length := by omega
  refine ⟨(list_gpus env).get ⟨(s - 1).toNat, hlt⟩, ?_, ?_⟩
  · rw [List.getElem?_eq_getElem hlt]
    rfl
  · simp only [configure_gpu, hok, hsel]
    rw [dif_pos ⟨h0, h1⟩]

/-! ## C3 — device-selection validation -/

/-- C3 counterexample: with three devices present, the non-numeric
selection input `"abc"` does not produce the `Invalid selection.`
report; it raises an uncaught `ValueError` (the `int(...)` call is not
inside any `try`), so the session crashes instead of reporting
`InvalidSelection`. -/
theorem c3_counterexample :
    (configure_gpu env3 "abc" "" "").crashed = some PyError.valueError
    ∧ "Invalid selection." ∉ (configure_gpu env3 "abc" "" "").output
    ∧ (configure_gpu env3 "abc" "" "").promptsAfterSelection = 0
    ∧ (configure_gpu env3 "abc" "" "").calls.filter isWriteCall = [] := by
  decide

/-- C3 (amended): an out-of-range numeric selection is reported as
`Invalid selection.` with no writes, no further prompts and no crash;
a non-numeric selection likewise issues no writes and no further
prompts, but raises an uncaught `ValueError` instead of producing the
`Invalid selection.` report. -/
theorem c3_selection_validation (env : DriverEnv) (sel m p : String)
    (hlib : env.libraryFound = true) (hload : env.loadOk = true) :
    (∀ s : Int, pyInt sel = some s →
      ¬(0 ≤ s - 1 ∧ s - 1 < ((list_gpus env).length : Int)) →
        (configure_gpu env sel m p).output =
          ("Available GPUs:" :: (list_gpus env).map gpuListingLine) ++
            ["Invalid selection."]
        ∧ (configure_gpu env sel m p).calls.filter isWriteCall = []
        ∧ (configure_gpu env sel m p).promptsAfterSelection = 0
        ∧ (configure_gpu env sel m p).crashed = none)
    ∧ (pyInt sel = none →
        (configure_gpu env sel m p).crashed = some PyError.valueError
        ∧ (configure_gpu env sel m p).calls.filter isWriteCall = []
        ∧ (configure_gpu env sel m p).promptsAfterSelection = 0
        ∧ (configure_gpu env sel m p).output =
            "Available GPUs:" :: (list_gpus env).map gpuListingLine) := by
  have hok : load_nvml_library env = Except.ok () := load_nvml_library_ok env hlib hload
  constructor
  · intro s hs hrange
    have hred : configure_gpu env sel m p =
        { calls := DriverCall.init :: list_gpus_trace env
          output := ("Available GPUs:" :: (list_gpus env).map gpuListingLine) ++
            ["Invalid selection."]
          promptsAfterSelection := 0
          crashed := none } := by
      simp only [configure_gpu, hok, hs]
      rw [dif_neg hrange]
    rw [hred]
    exact ⟨rfl, by simp [List.filter_cons, isInit, isWriteCall, filter_write_trace], rfl, rfl⟩
  · intro hs
    have hred : configure_gpu env sel m p =
        { calls := DriverCall.init :: list_gpus_trace env
          output := "Available GPUs:" :: (list_gpus env).map gpuListingLine
          promptsAfterSelection := 0
          crashed := some PyError.valueError } := by
      simp only [configure_gpu, hok, hs]
    rw [hred]
    exact ⟨rfl, by simp [List.filter_cons, isWriteCall, filter_write_trace], rfl, rfl⟩

/-- C3 witness: selection `"0"` with three devices (valid 1-based range
1–3) yields the `Invalid selection.` report, no writes, no further
prompts. -/
theorem c3_selection_validation_witness :
    (configure_gpu env3 "0" "" "").output =
      ("Available GPUs:" :: (list_gpus env3).map gpuListingLine) ++
        ["Invalid selection."]
    ∧ (configure_gpu env3 "0" "" "").calls.filter isWriteCall = []
    ∧ (configure_gpu env3 "0" "" "").promptsAfterSelection = 0
    ∧ (configure_gpu env3 "0" "" "").crashed = none :=
  (c3_selection_validation env3 "0" "" "" rfl rfl).1 0 (by decide) (by decide)

/-! ## C4 — blank responses keep both settings and write nothing -/

/-- C4: with a valid selection, blank (after stripping) memory-clock
and power-limit responses issue zero gateway writes and report that
both current settings were kept, and the session does not crash. -/
theorem c4_blank_keeps (env : DriverEnv) (sel m p : String) (s : Int)
    (hlib : env.libraryFound = true) (hload : env.loadOk = true)
    (hsel : pyInt sel = some s)
    (h0 : 0 ≤ s - 1) (h1 : s - 1 < ((list_gpus env).length : Int))
    (hm : pyStrip m = "") (hp : pyStrip p = "") :
    (configure_gpu env sel m p).calls.filter isWriteCall = []
    ∧ "Keeping current memory frequency setting" ∈ (configure_gpu env sel m p).output
    ∧ "Keeping current power limit setting" ∈ (configure_gpu env sel m p).output
    ∧ (configure_gpu env sel m p).crashed = none := by
  obtain ⟨g, -, hcfg⟩ := configure_gpu_valid env sel m p s hlib hload hsel h0 h1
  have hms : mem_step g m = ([], ["Keeping current memory frequency setting"]) := by
    simp [mem_step, hm]
  have hps : pow_step env g p = ([], ["Keeping current power limit setting"]) := by
    simp [pow_step, hp]
  rw [hcfg]
  refine ⟨?_, ?_, ?_, rfl⟩
  · simp [hms, hps, List.filter_cons, List.filter_append, isWriteCall, filter_write_trace]
  · simp [hms, hps]
  · simp [hms, hps]

/-- C4 witness: selecting device 1 of `env1` and answering both prompts
with blank input. -/
theorem c4_blank_keeps_witness :
    (configure_gpu env1 "1" "" "").calls.filter isWriteCall = []
    ∧ "Keeping current memory frequency setting" ∈ (configure_gpu env1 "1" "" "").output
    ∧ "Keeping current power limit setting" ∈ (configure_gpu env1 "1" "" "").output
    ∧ (configure_gpu env1 "1" "" "").crashed = none :=
  c4_blank_keeps env1 "1" "" "" 1 rfl rfl (by decide) (by decide) (by decide) rfl rfl

/-! ## C5 — non-numeric power-limit input keeps the limit, session completes -/

/-- C5: with a valid selection, a non-blank non-numeric power-limit
response issues no power-limit write (the `ValueError` is caught and
the existing limit kept), reports the invalid value, and the session
still reports overall completion naming the selected device. -/
theorem c5_power_parse_or_keep (env : DriverEnv) (sel m p : String) (s : Int)
    (hlib : env.libraryFound = true) (hload : env.loadOk = true)
    (hsel : pyInt sel = some s)
    (h0 : 0 ≤ s - 1) (h1 : s - 1 < ((list_gpus env).length : Int))
    (hpne : pyStrip p ≠ "") (hpn : pyInt (pyStrip p) = none) :
    (∀ idx mw, DriverCall.setPowerLimit idx mw ∉ (configure_gpu env sel m p).calls)
    ∧ "Invalid power limit value. Keeping current setting." ∈
        (configure_gpu env sel m p).output
    ∧ (∃ g : GpuRecord, (list_gpus env)[(s - 1).toNat]? = some g ∧
        ("Configuration complete for " ++ g.name) ∈ (configure_gpu env sel m p).output)
    ∧ (configure_gpu env sel m p).crashed = none := by
  obtain ⟨g, hg, hcfg⟩ := configure_gpu_valid env sel m p s hlib hload hsel h0 h1
  have hps : pow_step env g p =
      ([], ["Invalid power limit value. Keeping current setting."]) := by
    simp [pow_step, hpne, hpn]
  rw [hcfg]
  refine ⟨?_, ?_, ⟨g, hg, ?_⟩, rfl⟩
  · intro idx mw hmem
    simp only [hps, List.mem_cons, List.mem_append, List.append_nil] at hmem
    rcases hmem with h | h | h | h
    · cases h
    · have := (mem_list_gpus_trace env _ h).2.1
      simp [isWriteCall] at this
    · cases h
    · exact mem_step_no_power g m idx mw h
  · simp [hps]
  · simp [hps]

/-- C5 witness: selection `"1"`, blank memory response, power response
`"abc"`. -/
theorem c5_power_parse_or_keep_witness :
    (∀ idx mw, DriverCall.setPowerLimit idx mw ∉ (configure_gpu env1 "1" "" "abc").calls)
    ∧ "Invalid power limit value. Keeping current setting." ∈
        (configure_gpu env1 "1" "" "abc").output
    ∧ (∃ g : GpuRecord, (list_gpus env1)[((1 : Int) - 1).toNat]? = some g ∧
        ("Configuration complete for " ++ g.name) ∈ (configure_gpu env1 "1" "" "abc").output)
    ∧ (configure_gpu env1 "1" "" "abc").crashed = none :=
  c5_power_parse_or_keep env1 "1" "" "abc" 1 rfl rfl (by decide) (by decide)
    (by decide) (by decide) (by decide)

/-! ## C6 — milliwatt conversion, but rejection is not surfaced -/

/-- C6 counterexample: against a driver that rejects the power-limit
write (`envRej`; status 13, `NVML_ERROR_NOT_SUPPORTED`), the session is
byte-for-byte identical to the session against the accepting driver
`env1`: the write is issued, the operator is told
`Power limit updated to 200 W`, and no failure of any kind is reported
— the rejection is silently ignored, not surfaced. -/
theorem c6_counterexample :
    nvmlDeviceSetPowerManagementLimit envRej 0 200000 ≠ 0
    ∧ configure_gpu envRej "1" "" "200" = configure_gpu env1 "1" "" "200"
    ∧ "Power limit updated to 200 W" ∈ (configure_gpu envRej "1" "" "200").output
    ∧ DriverCall.setPowerLimit 0 200000 ∈ (configure_gpu envRej "1" "" "200").calls
    ∧ (configure_gpu envRej "1" "" "200").crashed = none := by
  decide

/-- C6 (amended): `set_power_limit` converts the watt value to the
driver's milliwatt unit (wrapping through the 32-bit `c_uint`) before
the write, but the driver's status code is discarded: the session
outcome is independent of whether the driver rejects the value, so a
rejection is never surfaced to the operator. -/
theorem c6_power_write_conversion (env : DriverEnv) (idx : Nat) (w : Int)
    (b : Bool) (sel m p : String) :
    sentMilliwatts (set_power_limit env idx w) =
      some (((w * 1000) % (2 ^ 32 : Int)).toNat)
    ∧ configure_gpu { env with rejectPowerLimit := b } sel m p =
        configure_gpu env sel m p :=
  ⟨rfl, rfl⟩

/-! ## C7 — the clock write passes the same frequency for both domains -/

/-- C7: with a valid selection and a parsed memory-clock value `f`, the
session issues exactly one clock-lock request, and that request carries
`f` for both the graphics and the memory domain (the source passes the
same frequency twice to `nvmlDeviceSetApplicationsClocks`). -/
theorem c7_clock_lock (env : DriverEnv) (sel m p : String) (s f : Int)
    (hlib : env.libraryFound = true) (hload : env.loadOk = true)
    (hsel : pyInt sel = some s)
    (h0 : 0 ≤ s - 1) (h1 : s - 1 < ((list_gpus env).length : Int))
    (hmne : pyStrip m ≠ "") (hmf : pyInt (pyStrip m) = some f) :
    ∃ g : GpuRecord, (list_gpus env)[(s - 1).toNat]? = some g ∧
      (configure_gpu env sel m p).calls.filter isClockCall =
        [DriverCall.setApplicationsClocks g.id f f] := by
  obtain ⟨g, hg, hcfg⟩ := configure_gpu_valid env sel m p s hlib hload hsel h0 h1
  have hms : mem_step g m =
      ([set_memory_frequency g.id f],
       ["Memory Frequency updated to " ++ toString f ++ " MHz"]) := by
    simp [mem_step, hmne, hmf]
  refine ⟨g, hg, ?_⟩
  rw [hcfg]
  simp [hms, List.filter_cons, List.filter_append, isClockCall, filter_clock_trace,
    set_memory_frequency, pow_step_filter_clock]

/-- C7 witness: selection `"1"`, memory-clock response `"810"`. -/
theorem c7_clock_lock_witness :
    ∃ g : GpuRecord, (list_gpus env1)[((1 : Int) - 1).toNat]? = some g ∧
      (configure_gpu env1 "1" "810" "").calls.filter isClockCall =
        [DriverCall.setApplicationsClocks g.id 810 810] :=
  c7_clock_lock env1 "1" "810" "" 1 810 rfl rfl (by decide) (by decide) (by decide)
    (by decide) (by decide)

/-! ## C8 — driver initialization per menu action -/

lemma countInits_append (l₁ l₂ : List DriverCall) :
    countInits (l₁ ++ l₂) = countInits l₁ + countInits l₂ := by
  simp [countInits, List.filter_append]

lemma countInits_trace (env : DriverEnv) : countInits (list_gpus_trace env) = 0 := by
  simp [countInits, filter_init_trace]

lemma countInits_ticks (env : DriverEnv) (l : List Nat) :
    countInits (l.flatMap (fun _ => list_gpus_trace env)) = 0 := by
  induction l with
  | nil => rfl
  | cons a t ih =>
    rw [List.flatMap_cons, countInits_append, countInits_trace, ih]

lemma configure_gpu_calls_shape (env : DriverEnv) (sel m p : String)
    (hlib : env.libraryFound = true) (hload : env.loadOk = true) :
    ∃ rest : List DriverCall,
      (configure_gpu env sel m p).calls = DriverCall.init :: rest
      ∧ rest.filter isInit = [] := by
  have hok : load_nvml_library env = Except.ok () := load_nvml_library_ok env hlib hload
  cases hsel : pyInt sel with
  | none =>
    refine ⟨list_gpus_trace env, ?_, filter_init_trace env⟩
    simp only [configure_gpu, hok, hsel]
  | some s =>
    by_cases h : 0 ≤ s - 1 ∧ s - 1 < ((list_gpus env).length : Int)
    · obtain ⟨g, -, hcfg⟩ := configure_gpu_valid env sel m p s hlib hload hsel h.1 h.2
      refine ⟨_, by rw [hcfg], ?_⟩
      simp [List.filter_append, List.filter_cons, isInit, filter_init_trace,
        mem_step_filter_init, pow_step_filter_init]
    · refine ⟨list_gpus_trace env, ?_, filter_init_trace env⟩
      simp only [configure_gpu, hok, hsel]
      rw [dif_neg h]

lemma countInits_action (env : DriverEnv) (a : MenuAction)
    (hlib : env.libraryFound = true) (hload : env.loadOk = true) :
    countInits (action_trace env a) = 1 := by
  have hok : load_nvml_library env = Except.ok () := load_nvml_library_ok env hlib hload
  cases a with
  | systemInfo =>
    simp [action_trace, hok, countInits, List.filter_cons, isInit, filter_init_trace]
  | monitor t =>
    have h := countInits_ticks env (List.range t)
    simp only [action_trace, hok]
    simp [countInits, List.filter_cons, isInit] at h ⊢
    exact h
  | configure s m p =>
    obtain ⟨rest, hcalls, hrest⟩ := configure_gpu_calls_shape env s m p hlib hload
    simp [action_trace, hcalls, countInits, List.filter_cons, isInit, hrest]

lemma run_trace_cons_ok (env : DriverEnv) (a : MenuAction) (rest : List MenuAction)
    (hok : load_nvml_library env = Except.ok ()) :
    run_trace env (a :: rest) = action_trace env a ++ run_trace env rest := by
  cases a <;> simp [run_trace, actionAborts, hok]

/-- C8 counterexample: two `View System Information` menu actions in
one run produce two driver initializations — each handler constructs a
fresh `NVMLWrapper`, so initialization is not once-per-process. -/
theorem c8_counterexample :
    ¬ countInits (run_trace env1
        [MenuAction.systemInfo, MenuAction.systemInfo]) ≤ 1 := by
  decide

/-- C8 (amended): when the library loads, every menu action
re-initializes the driver exactly once — the number of `nvmlInit_v2`
calls in a run equals the number of actions performed — and within
each action the initialization does come before every other gateway
call (it heads the action's trace). -/
theorem c8_init_per_action (env : DriverEnv) (actions : List MenuAction)
    (hlib : env.libraryFound = true) (hload : env.loadOk = true) :
    countInits (run_trace env actions) = actions.length
    ∧ ∀ a : MenuAction, (action_trace env a).head? = some DriverCall.init := by
  have hok : load_nvml_library env = Except.ok () := load_nvml_library_ok env hlib hload
  constructor
  · induction actions with
    | nil => rfl
    | cons a rest ih =>
      rw [run_trace_cons_ok env a rest hok, countInits_append, ih,
        countInits_action env a hlib hload]
      simp [Nat.add_comm]
  · intro a
    cases a with
    | systemInfo => simp [action_trace, hok]
    | monitor t => simp [action_trace, hok]
    | configure s m p =>
      obtain ⟨rest, hcalls, -⟩ := configure_gpu_calls_shape env s m p hlib hload
      simp [action_trace, hcalls]

/-- C8 witness: a run of `env1` performing a system-information action
and then a configuration session initializes the driver twice, and each
action's trace is headed by the initialization. -/
theorem c8_init_per_action_witness :
    countInits (run_trace env1
      [MenuAction.systemInfo, MenuAction.configure "1" "" ""]) = 2
    ∧ (action_trace env1 MenuAction.systemInfo).head? = some DriverCall.init := by
  have h := c8_init_per_action env1
    [MenuAction.systemInfo, MenuAction.configure "1" "" ""] rfl rfl
  exact ⟨h.1, h.2 MenuAction.systemInfo⟩

/-! ## C9 — degraded mode on load failure; init status is discarded -/

/-- C9 counterexample: with the library located and loaded but
`nvmlInit_v2` reporting failure (status 9, driver not loaded), no
warning is shown — the failed initialization status code is discarded,
so the error is not "caught and translated into a user-facing warning"
as the claim states for initialization failures. -/
theorem c9_counterexample :
    nvmlInit_v2 envInitFail ≠ 0
    ∧ (get_system_info envInitFail).warning = none
    ∧ (get_system_info envInitFail).crashed = none := by
  decide

/-- C9 (amended): if the library cannot be located, or loading it
raises, the exception is caught and translated into a user-facing
warning while the system-only facts are still displayed, and
`get_system_info` never lets an exception propagate; but a failure
reported by `nvmlInit_v2`'s status code is silently discarded rather
than warned about. -/
theorem c9_degraded_mode (env : DriverEnv)
    (h : env.libraryFound = false ∨ env.loadOk = false) :
    (get_system_info env).warning.isSome = true
    ∧ (get_system_info env).sysFactsShown = true
    ∧ (get_system_info env).totalPower = none
    ∧ ∀ env2 : DriverEnv, (get_system_info env2).crashed = none := by
  have hfail : ∃ e, load_nvml_library env = Except.error e := by
    rcases h with h | h
    · exact ⟨PyError.runtimeError
        "NVML library not found. Ensure NVIDIA drivers are installed.",
        by simp [load_nvml_library, h]⟩
    · by_cases hl : env.libraryFound
      · exact ⟨PyError.osError, by simp [load_nvml_library, hl, h]⟩
      · exact ⟨PyError.runtimeError
          "NVML library not found. Ensure NVIDIA drivers are installed.",
          by simp [load_nvml_library, hl]⟩
  obtain ⟨e, he⟩ := hfail
  refine ⟨by simp [get_system_info, he], by simp [get_system_info, he],
    by simp [get_system_info, he], ?_⟩
  intro env2
  cases hl : load_nvml_library env2 <;> simp [get_system_info, hl]

/-- C9 witness: the library is absent in `envNoLib`; the warning is
shown and the system facts still render. -/
theorem c9_degraded_mode_witness :
    (get_system_info envNoLib).warning.isSome = true
    ∧ (get_system_info envNoLib).sysFactsShown = true
    ∧ (get_system_info envNoLib).totalPower = none :=
  ⟨(c9_degraded_mode envNoLib (Or.inl rfl)).1,
   (c9_degraded_mode envNoLib (Or.inl rfl)).2.1,
   (c9_degraded_mode envNoLib (Or.inl rfl)).2.2.1⟩

/-! ## C10 — watts are wrapped through a 32-bit unsigned milliwatt value -/

/-- C10: every watt value `w` the power-limit prompt accepts reaches
the driver as `(w * 1000) mod 2^32` milliwatts (the `c_uint` coercion
wraps; negative or oversized products are silently wrapped, never
rejected), and for `0 ≤ w < 4294968` the driver receives exactly
`w * 1000`; a session whose power input parses to `w` issues exactly
that wrapped write for the selected device. -/
theorem c10_milliwatt_wrap (env : DriverEnv) (idx : Nat) (w : Int)
    (sel m p : String) (s : Int)
    (hlib : env.libraryFound = true) (hload : env.loadOk = true)
    (hsel : pyInt sel = some s)
    (h0 : 0 ≤ s - 1) (h1 : s - 1 < ((list_gpus env).length : Int))
    (hpne : pyStrip p ≠ "") (hpw : pyInt (pyStrip p) = some w) :
    sentMilliwatts (set_power_limit env idx w) =
      some (((w * 1000) % (2 ^ 32 : Int)).toNat)
    ∧ (0 ≤ w → w < 4294968 →
        ((((w * 1000) % (2 ^ 32 : Int)).toNat : Int) = w * 1000))
    ∧ ∃ g : GpuRecord, (list_gpus env)[(s - 1).toNat]? = some g ∧
        DriverCall.setPowerLimit g.id (((w * 1000) % (2 ^ 32 : Int)).toNat)
          ∈ (configure_gpu env sel m p).calls := by
  refine ⟨rfl, ?_, ?_⟩
  · intro hw0 hw1
    have hpow : (2 ^ 32 : Int) = 4294967296 := by norm_num
    have h0' : 0 ≤ w * 1000 := by omega
    have hlt : w * 1000 < (2 ^ 32 : Int) := by omega
    rw [Int.emod_eq_of_lt h0' hlt, Int.toNat_of_nonneg h0']
  · obtain ⟨g, hg, hcfg⟩ := configure_gpu_valid env sel m p s hlib hload hsel h0 h1
    have hps : pow_step env g p =
        ([set_power_limit env g.id w],
         ["Power limit updated to " ++ toString w ++ " W"]) := by
      simp [pow_step, hpne, hpw]
    refine ⟨g, hg, ?_⟩
    rw [hcfg]
    simp [hps, set_power_limit, c_uint, List.mem_cons, List.mem_append]

/-- C10 witness: the prompt accepts `"-5"`; the driver receives
`(-5000) mod 2^32 = 4294962296` milliwatts — silently wrapped. -/
theorem c10_milliwatt_wrap_witness :
    sentMilliwatts (set_power_limit env1 0 (-5)) =
      some ((((-5 : Int) * 1000) % (2 ^ 32 : Int)).toNat)
    ∧ ((((-5 : Int) * 1000) % (2 ^ 32 : Int)).toNat = 4294962296)
    ∧ ∃ g : GpuRecord, (list_gpus env1)[((1 : Int) - 1).toNat]? = some g ∧
        DriverCall.setPowerLimit g.id ((((-5 : Int) * 1000) % (2 ^ 32 : Int)).toNat)
          ∈ (configure_gpu env1 "1" "" "-5").calls := by
  have h := c10_milliwatt_wrap env1 0 (-5) "1" "" "-5" 1 rfl rfl (by decide)
    (by decide) (by decide) (by decide) (by decide)
  exact ⟨h.1, by decide, h.2.2⟩
